import Mathlib

/-!
Shallow embedding of the Ledger Engine of `iob-maiis`
(`backend/app/services/banking_service.py` together with the SQLAlchemy
models `backend/app/models/account.py` and `backend/app/models/transaction.py`).

Monetary amounts (`Decimal` in the source) are embedded as `Int`; the service
only adds, subtracts and compares them, so no rounding is involved.
Python exceptions are embedded as a class name plus a message (`PyExc`).
The SQLAlchemy session is embedded as an explicit `DBState` threaded through
every operation; `rollback` restores the state of the last commit, which for
every operation of this service is the state at the start of the call.
Each operation also records the database events it performs (`DbEvent`), in
particular plain `SELECT`s versus row-lock acquisitions.
-/

namespace Bank

/-- `AccountType` enumeration of `models/account.py`. -/
inductive AccountType where
  | savings
  | checking
  | fixed_deposit
deriving DecidableEq, Repr

/-- `TransactionType` enumeration of `models/transaction.py`. -/
inductive TransactionType where
  | deposit
  | withdrawal
  | transfer
deriving DecidableEq, Repr

/-- `TransactionStatus` enumeration of `models/transaction.py`. -/
inductive TransactionStatus where
  | pending
  | completed
  | failed
  | cancelled
deriving DecidableEq, Repr

/-- A raised Python exception: its class name and its message. -/
structure PyExc where
  cls : String
  msg : String
deriving DecidableEq, Repr

/-- The `Account` model of `models/account.py` (mapped columns). -/
structure Account where
  id : Nat
  account_number : String
  account_type : AccountType
  balance : Int
  currency : String
  user_id : Nat
  is_active : Bool
deriving DecidableEq, Repr

/-- The `Transaction` model of `models/transaction.py` (mapped columns).
Note the model has `from_account_id`, `to_account_id` and `reference_number`;
it has no `account_id`, `reference`, `balance_after` or `related_account_id`
columns. -/
structure Transaction where
  id : Nat
  transaction_type : TransactionType
  amount : Int
  currency : String
  status : TransactionStatus
  from_account_id : Option Nat
  to_account_id : Option Nat
  description : String
  reference_number : Option String
deriving DecidableEq, Repr

/-- Committed database state: user ids, account rows, transaction rows. -/
structure DBState where
  users : List Nat
  accounts : List Account
  transactions : List Transaction
deriving DecidableEq, Repr

/-- Database events performed by an operation.  `lockAccount` is a
`SELECT ... FOR UPDATE`-style row lock acquisition; the service only ever
issues plain queries, so no operation below emits it. -/
inductive DbEvent where
  | selectUser (user_id : Nat)
  | selectAccount (account_id : Nat)
  | lockAccount (account_id : Nat)
  | addAccount
  | addTransaction
  | flush
  | commit
  | rollback
deriving DecidableEq, Repr

/-- Is this event a row-lock acquisition? -/
def DbEvent.isLock : DbEvent → Bool
  | .lockAccount _ => true
  | _ => false

/-- Is this event a plain account `SELECT`? -/
def DbEvent.isSelectAccount : DbEvent → Bool
  | .selectAccount _ => true
  | _ => false

/-- Outcome of one service call: the returned value or raised exception, the
committed database state after the call, and the database events performed. -/
structure OpOut (α : Type) where
  result : Except PyExc α
  state : DBState
  events : List DbEvent

/-- The exception class of a result, if it is an error. -/
def errClass {α : Type} : Except PyExc α → Option String
  | .error e => some e.cls
  | .ok _ => none

/-- `BankingService.get_account`: plain query by primary key
(`self.db.query(Account).filter(Account.id == account_id).first()`). -/
def findAccount (s : DBState) (account_id : Nat) : Option Account :=
  s.accounts.find? (fun a => a.id == account_id)

/-- In-session mutation of the account with the given id (ORM attribute
assignment on the loaded row). -/
def setAccount (s : DBState) (account_id : Nat) (f : Account → Account) : DBState :=
  { s with accounts := s.accounts.map (fun a => if a.id == account_id then f a else a) }

/-- Mapped column and relationship attributes of the `Transaction` class
(`models/transaction.py`). -/
def transactionAttrs : List String :=
  ["id", "transaction_type", "amount", "currency", "status",
   "from_account_id", "to_account_id", "description", "reference_number",
   "created_at", "completed_at", "from_account", "to_account"]

/-- The keyword arguments `BankingService._create_transaction` passes to the
`Transaction` constructor, in call order. -/
def createTransactionKwargs : List String :=
  ["account_id", "transaction_type", "amount", "description", "status",
   "reference", "balance_after"]

/-- SQLAlchemy's default declarative constructor rejects the first keyword
argument that is not an attribute of the mapped class (`TypeError`). -/
def declarativeInitCheck (attrs kwargs : List String) : Option String :=
  kwargs.find? (fun k => !(attrs.contains k))

/-- `BankingService._create_transaction`: constructs
`Transaction(account_id=..., transaction_type=..., amount=..., description=...,
status=..., reference=..., balance_after=...)` and would add and flush it.
The `related_account_id` parameter is accepted but never forwarded to the
constructor.  The declarative constructor rejects the keywords that are not
mapped `Transaction` attributes. -/
def create_transaction (account_id : Nat) (transaction_type : TransactionType)
    (amount : Int) (description : String) (status : TransactionStatus)
    (reference : Option String) (balance_after : Option Int)
    (related_account_id : Option Nat) : Except PyExc Transaction :=
  match declarativeInitCheck transactionAttrs createTransactionKwargs with
  | some k => .error ⟨"TypeError", k ++ " is an invalid keyword argument for Transaction"⟩
  | none =>
      -- unreachable for this call: `createTransactionKwargs` contains keywords
      -- that are not `Transaction` attributes, so the check above always finds
      -- one; the row below records what the call would have stored
      .ok { id := 0, transaction_type := transaction_type, amount := amount,
            currency := "USD", status := status,
            from_account_id := none, to_account_id := related_account_id,
            description := description, reference_number := reference,
            : Transaction }

/-- Member names of the `AccountType` enum (`models/account.py`). -/
def accountTypeMembers : List String := ["SAVINGS", "CHECKING", "FIXED_DEPOSIT"]

/-- Enum members referenced by the `type_codes` dict literal in
`BankingService._generate_account_number`, in evaluation order. -/
def typeCodesDictMembers : List String := ["CHECKING", "SAVINGS", "CREDIT", "INVESTMENT"]

/-- Python `str.zfill`: left-pad with `'0'` to the given width. -/
def zfill (width : Nat) (s : String) : String :=
  if width ≤ s.length then s
  else String.mk (List.replicate (width - s.length) '0') ++ s

/-- `BankingService._generate_account_number`.  Building the `type_codes` dict
literal evaluates `AccountType.CHECKING`, `AccountType.SAVINGS`,
`AccountType.CREDIT`, `AccountType.INVESTMENT` in order; accessing a name that
is not a member of the enum raises `AttributeError`. -/
def generate_account_number (s : DBState) (user_id : Nat)
    (account_type : AccountType) : Except PyExc String :=
  match typeCodesDictMembers.find? (fun m => !(accountTypeMembers.contains m)) with
  | some m => .error ⟨"AttributeError", m⟩
  | none =>
      -- unreachable: `CREDIT` is not an `AccountType` member; the code below
      -- records what the call would have computed (`type_codes.get` with
      -- default `"9000"` for the unlisted `FIXED_DEPOSIT`)
      let type_code := match account_type with
        | .checking => "1000"
        | .savings => "2000"
        | .fixed_deposit => "9000"
      let user_code := zfill 4 (toString user_id)
      let count := (s.accounts.filter (fun a => a.user_id == user_id)).length
      let sequence := zfill 8 (toString (count + 1))
      .ok (type_code ++ user_code ++ sequence)

/-- Fresh autoincrement id for a new account row. -/
def nextAccountId (s : DBState) : Nat :=
  (s.accounts.map (fun a => a.id)).foldr max 0 + 1

/-- `BankingService.create_account`. -/
def create_account (s : DBState) (user_id : Nat) (account_type : AccountType)
    (currency : String) (initial_balance : Int) : OpOut Account :=
  if s.users.contains user_id = false then
    ⟨.error ⟨"ValueError", "User with ID " ++ toString user_id ++ " not found"⟩, s,
     [.selectUser user_id, .rollback]⟩
  else
    match generate_account_number s user_id account_type with
    | .error e => ⟨.error e, s, [.selectUser user_id, .rollback]⟩
    | .ok number =>
        -- unreachable: `generate_account_number` always raises; kept to mirror
        -- the source.  The account is committed before the initial deposit
        -- transaction is attempted.
        let account : Account :=
          { id := nextAccountId s, account_number := number,
            account_type := account_type, balance := initial_balance,
            currency := currency, user_id := user_id, is_active := true }
        let s1 : DBState := { s with accounts := s.accounts ++ [account] }
        if 0 < initial_balance then
          match create_transaction account.id .deposit initial_balance
              "Initial deposit" .completed none none none with
          | .error e =>
              ⟨.error e, s1, [.selectUser user_id, .addAccount, .commit, .rollback]⟩
          | .ok t =>
              ⟨.ok account, { s1 with transactions := s1.transactions ++ [t] },
               [.selectUser user_id, .addAccount, .commit, .addTransaction, .flush]⟩
        else ⟨.ok account, s1, [.selectUser user_id, .addAccount, .commit]⟩

/-- `BankingService.deposit`. -/
def deposit (s : DBState) (account_id : Nat) (amount : Int)
    (description : Option String) (reference : Option String) : OpOut Transaction :=
  if amount ≤ 0 then
    ⟨.error ⟨"ValueError", "Deposit amount must be positive"⟩, s, []⟩
  else
    match findAccount s account_id with
    | none =>
        ⟨.error ⟨"ValueError", "Account " ++ toString account_id ++ " not found"⟩, s,
         [.selectAccount account_id]⟩
    | some account =>
        if account.is_active = false then
          ⟨.error ⟨"ValueError", "Account " ++ account.account_number ++ " is not active"⟩,
           s, [.selectAccount account_id]⟩
        else
          -- try block: `account.balance += amount`, then `_create_transaction`,
          -- then commit; any exception rolls the session back
          let new_balance := account.balance + amount
          let s1 := setAccount s account_id (fun a => { a with balance := new_balance })
          match create_transaction account_id .deposit amount
              ((description).getD "Deposit") .completed reference (some new_balance) none with
          | .error e => ⟨.error e, s, [.selectAccount account_id, .rollback]⟩
          | .ok t =>
              ⟨.ok t, { s1 with transactions := s1.transactions ++ [t] },
               [.selectAccount account_id, .addTransaction, .flush, .commit]⟩

/-- `BankingService.withdraw`. -/
def withdraw (s : DBState) (account_id : Nat) (amount : Int)
    (description : Option String) (reference : Option String) : OpOut Transaction :=
  if amount ≤ 0 then
    ⟨.error ⟨"ValueError", "Withdrawal amount must be positive"⟩, s, []⟩
  else
    match findAccount s account_id with
    | none =>
        ⟨.error ⟨"ValueError", "Account " ++ toString account_id ++ " not found"⟩, s,
         [.selectAccount account_id]⟩
    | some account =>
        if account.is_active = false then
          ⟨.error ⟨"ValueError", "Account " ++ account.account_number ++ " is not active"⟩,
           s, [.selectAccount account_id]⟩
        else if account.balance < amount then
          ⟨.error ⟨"ValueError", "Insufficient funds. Balance: " ++ toString account.balance
              ++ ", Requested: " ++ toString amount⟩,
           s, [.selectAccount account_id]⟩
        else
          let new_balance := account.balance - amount
          let s1 := setAccount s account_id (fun a => { a with balance := new_balance })
          match create_transaction account_id .withdrawal amount
              ((description).getD "Withdrawal") .completed reference (some new_balance) none with
          | .error e => ⟨.error e, s, [.selectAccount account_id, .rollback]⟩
          | .ok t =>
              ⟨.ok t, { s1 with transactions := s1.transactions ++ [t] },
               [.selectAccount account_id, .addTransaction, .flush, .commit]⟩

/-- `BankingService.transfer`. -/
def transfer (s : DBState) (from_account_id to_account_id : Nat) (amount : Int)
    (description : Option String) (reference : Option String) :
    OpOut (Transaction × Transaction) :=
  if amount ≤ 0 then
    ⟨.error ⟨"ValueError", "Transfer amount must be positive"⟩, s, []⟩
  else if from_account_id == to_account_id then
    ⟨.error ⟨"ValueError", "Cannot transfer to the same account"⟩, s, []⟩
  else
    -- both accounts are read with plain queries, in argument order, no locks
    match findAccount s from_account_id, findAccount s to_account_id with
    | none, _ =>
        ⟨.error ⟨"ValueError", "Source account " ++ toString from_account_id ++ " not found"⟩,
         s, [.selectAccount from_account_id, .selectAccount to_account_id]⟩
    | some _, none =>
        ⟨.error ⟨"ValueError", "Destination account " ++ toString to_account_id ++ " not found"⟩,
         s, [.selectAccount from_account_id, .selectAccount to_account_id]⟩
    | some from_account, some to_account =>
        if from_account.is_active = false then
          ⟨.error ⟨"ValueError", "Source account " ++ from_account.account_number
              ++ " is not active"⟩,
           s, [.selectAccount from_account_id, .selectAccount to_account_id]⟩
        else if to_account.is_active = false then
          ⟨.error ⟨"ValueError", "Destination account " ++ to_account.account_number
              ++ " is not active"⟩,
           s, [.selectAccount from_account_id, .selectAccount to_account_id]⟩
        else if from_account.currency != to_account.currency then
          ⟨.error ⟨"ValueError", "Currency mismatch: " ++ from_account.currency
              ++ " != " ++ to_account.currency⟩,
           s, [.selectAccount from_account_id, .selectAccount to_account_id]⟩
        else if from_account.balance < amount then
          ⟨.error ⟨"ValueError", "Insufficient funds. Balance: " ++ toString from_account.balance
              ++ ", Requested: " ++ toString amount⟩,
           s, [.selectAccount from_account_id, .selectAccount to_account_id]⟩
        else
          -- try block: mutate both balances, then create debit and credit rows
          let from_balance := from_account.balance - amount
          let to_balance := to_account.balance + amount
          let s1 := setAccount s from_account_id (fun a => { a with balance := from_balance })
          let s2 := setAccount s1 to_account_id (fun a => { a with balance := to_balance })
          match create_transaction from_account_id .transfer amount
              ((description).getD ("Transfer to " ++ to_account.account_number)) .completed
              reference (some from_balance) (some to_account_id) with
          | .error e =>
              ⟨.error e, s,
               [.selectAccount from_account_id, .selectAccount to_account_id, .rollback]⟩
          | .ok debit =>
              match create_transaction to_account_id .transfer amount
                  ((description).getD ("Transfer from " ++ from_account.account_number)) .completed
                  reference (some to_balance) (some from_account_id) with
              | .error e =>
                  ⟨.error e, s,
                   [.selectAccount from_account_id, .selectAccount to_account_id, .rollback]⟩
              | .ok credit =>
                  ⟨.ok (debit, credit),
                   { s2 with transactions := s2.transactions ++ [debit, credit] },
                   [.selectAccount from_account_id, .selectAccount to_account_id,
                    .addTransaction, .flush, .addTransaction, .flush, .commit]⟩

/-- `BankingService.close_account`. -/
def close_account (s : DBState) (account_id : Nat) : OpOut Account :=
  match findAccount s account_id with
  | none =>
      ⟨.error ⟨"ValueError", "Account " ++ toString account_id ++ " not found"⟩, s,
       [.selectAccount account_id]⟩
  | some account =>
      if account.balance != 0 then
        ⟨.error ⟨"ValueError", "Cannot close account with non-zero balance: "
            ++ toString account.balance⟩,
         s, [.selectAccount account_id]⟩
      else
        ⟨.ok { account with is_active := false },
         setAccount s account_id (fun a => { a with is_active := false }),
         [.selectAccount account_id, .commit]⟩

/-- `BankingService.reactivate_account`. -/
def reactivate_account (s : DBState) (account_id : Nat) : OpOut Account :=
  match findAccount s account_id with
  | none =>
      ⟨.error ⟨"ValueError", "Account " ++ toString account_id ++ " not found"⟩, s,
       [.selectAccount account_id]⟩
  | some account =>
      ⟨.ok { account with is_active := true },
       setAccount s account_id (fun a => { a with is_active := true }),
       [.selectAccount account_id, .commit]⟩

/-- Return value of `BankingService.get_account_summary`. -/
structure AccountSummary where
  balance : Int
  currency : String
  total_deposits : Int
  total_withdrawals : Int
  transaction_count : Nat
deriving DecidableEq, Repr

/-- `BankingService.get_account_summary`.  The deposit-total query filters on
`Transaction.account_id`; the `Transaction` class defines no such attribute,
so building the query raises `AttributeError`. -/
def get_account_summary (s : DBState) (account_id : Nat) : OpOut AccountSummary :=
  match findAccount s account_id with
  | none =>
      ⟨.error ⟨"ValueError", "Account " ++ toString account_id ++ " not found"⟩, s,
       [.selectAccount account_id]⟩
  | some account =>
      if transactionAttrs.contains "account_id" = false then
        ⟨.error ⟨"AttributeError", "type object Transaction has no attribute account_id"⟩,
         s, [.selectAccount account_id]⟩
      else
        -- unreachable: `account_id` is not a `Transaction` attribute; kept to
        -- record the sums the source text describes
        ⟨.ok { balance := account.balance, currency := account.currency,
               total_deposits := 0, total_withdrawals := 0,
               transaction_count := s.transactions.length },
         s, [.selectAccount account_id]⟩

/-! ### Basic computation lemmas -/

/-- The constructor call in `_create_transaction` always raises: `account_id`
is the first keyword that is not a `Transaction` attribute. -/
theorem create_transaction_eq (account_id : Nat) (transaction_type : TransactionType)
    (amount : Int) (description : String) (status : TransactionStatus)
    (reference : Option String) (balance_after : Option Int)
    (related_account_id : Option Nat) :
    create_transaction account_id transaction_type amount description status
        reference balance_after related_account_id =
      .error ⟨"TypeError", "account_id is an invalid keyword argument for Transaction"⟩ := rfl

/-- The `type_codes` dict literal always raises: `CREDIT` is not an
`AccountType` member. -/
theorem generate_account_number_eq (s : DBState) (user_id : Nat)
    (account_type : AccountType) :
    generate_account_number s user_id account_type = .error ⟨"AttributeError", "CREDIT"⟩ := rfl

/-- `create_account` never changes the database: it fails before adding the
account row. -/
theorem create_account_state (s : DBState) (u : Nat) (t : AccountType)
    (c : String) (b : Int) : (create_account s u t c b).state = s := by
  unfold create_account
  rw [generate_account_number_eq]
  split <;> rfl

/-- `deposit` never changes the database: every path either fails validation
or rolls back after `_create_transaction` raises. -/
theorem deposit_state (s : DBState) (i : Nat) (a : Int)
    (d r : Option String) : (deposit s i a d r).state = s := by
  unfold deposit
  split
  · rfl
  · split
    · rfl
    · split
      · rfl
      · rfl

/-- `withdraw` never changes the database. -/
theorem withdraw_state (s : DBState) (i : Nat) (a : Int)
    (d r : Option String) : (withdraw s i a d r).state = s := by
  unfold withdraw
  split
  · rfl
  · split
    · rfl
    · split
      · rfl
      · split
        · rfl
        · rfl

/-- `transfer` never changes the database: the in-session balance mutations
are rolled back when the debit row's constructor raises. -/
theorem transfer_state (s : DBState) (f t : Nat) (a : Int)
    (d r : Option String) : (transfer s f t a d r).state = s := by
  unfold transfer
  split
  · rfl
  · split
    · rfl
    · split
      · rfl
      · rfl
      · split
        · rfl
        · split
          · rfl
          · split
            · rfl
            · split
              · rfl
              · rfl

/-- A failing `close_account` leaves the database unchanged. -/
theorem close_account_state_of_error (s : DBState) (i : Nat) (e : PyExc)
    (h : (close_account s i).result = .error e) : (close_account s i).state = s := by
  unfold close_account at h ⊢
  cases hfind : findAccount s i
  · rfl
  · rename_i acc
    rw [hfind] at h
    by_cases hb : (acc.balance != 0) = true
    · simp [hb]
    · simp [hb] at h

/-- A failing `reactivate_account` leaves the database unchanged. -/
theorem reactivate_account_state_of_error (s : DBState) (i : Nat) (e : PyExc)
    (h : (reactivate_account s i).result = .error e) :
    (reactivate_account s i).state = s := by
  unfold reactivate_account at h ⊢
  cases hfind : findAccount s i
  · rfl
  · rw [hfind] at h
    simp at h

/-! ### A concrete seeded database

The engine itself can never create an account (`create_account` always
raises), so concrete scenarios run on a database seeded from outside the
service: two active USD accounts with positive balance and one inactive
account with zero balance. -/

/-- Active USD checking account, id 1, balance 100. -/
def accA : Account :=
  { id := 1, account_number := "10000001", account_type := .checking,
    balance := 100, currency := "USD", user_id := 1, is_active := true }

/-- Active USD savings account, id 2, balance 80. -/
def accB : Account :=
  { id := 2, account_number := "20000001", account_type := .savings,
    balance := 80, currency := "USD", user_id := 1, is_active := true }

/-- Inactive USD account, id 3, balance 0. -/
def accC : Account :=
  { id := 3, account_number := "30000001", account_type := .checking,
    balance := 0, currency := "USD", user_id := 1, is_active := false }

/-- Seeded database: one user, the three accounts above, empty ledger. -/
def demoState : DBState :=
  { users := [1], accounts := [accA, accB, accC], transactions := [] }

/-! ### Validation-error characterizations -/

/-- Deposit to an existing inactive account (with positive amount) is
rejected with the not-active message. -/
theorem deposit_err_inactive (s : DBState) (i : Nat) (a : Int) (d r : Option String)
    (acc : Account) (hf : findAccount s i = some acc) (hact : acc.is_active = false)
    (ha : 0 < a) :
    (deposit s i a d r).result =
      .error ⟨"ValueError", "Account " ++ acc.account_number ++ " is not active"⟩ := by
  unfold deposit
  rw [if_neg (not_le.mpr ha), hf]
  simp [hact]

/-- Withdrawal from an existing inactive account (with positive amount) is
rejected with the not-active message. -/
theorem withdraw_err_inactive (s : DBState) (i : Nat) (a : Int) (d r : Option String)
    (acc : Account) (hf : findAccount s i = some acc) (hact : acc.is_active = false)
    (ha : 0 < a) :
    (withdraw s i a d r).result =
      .error ⟨"ValueError", "Account " ++ acc.account_number ++ " is not active"⟩ := by
  unfold withdraw
  rw [if_neg (not_le.mpr ha), hf]
  simp [hact]

/-- Withdrawal beyond the balance of an existing active account is rejected
with the insufficient-funds message. -/
theorem withdraw_err_insufficient (s : DBState) (i : Nat) (a : Int) (d r : Option String)
    (acc : Account) (hf : findAccount s i = some acc) (hact : acc.is_active = true)
    (ha : 0 < a) (hlt : acc.balance < a) :
    (withdraw s i a d r).result =
      .error ⟨"ValueError", "Insufficient funds. Balance: " ++ toString acc.balance
        ++ ", Requested: " ++ toString a⟩ := by
  unfold withdraw
  rw [if_neg (not_le.mpr ha), hf]
  simp [hact, hlt]

/-- Transfer with non-positive amount is rejected first. -/
theorem transfer_err_amount (s : DBState) (f t : Nat) (a : Int) (d r : Option String)
    (ha : a ≤ 0) :
    (transfer s f t a d r).result =
      .error ⟨"ValueError", "Transfer amount must be positive"⟩ := by
  unfold transfer
  rw [if_pos ha]

/-- Transfer between one and the same account (with positive amount) is
rejected. -/
theorem transfer_err_same_account (s : DBState) (f : Nat) (a : Int) (d r : Option String)
    (ha : 0 < a) :
    (transfer s f f a d r).result =
      .error ⟨"ValueError", "Cannot transfer to the same account"⟩ := by
  unfold transfer
  rw [if_neg (not_le.mpr ha), if_pos (by simp)]

/-- Transfer out of an inactive source account is rejected. -/
theorem transfer_err_source_inactive (s : DBState) (f t : Nat) (a : Int)
    (d r : Option String) (fa ta : Account) (ha : 0 < a) (hft : f ≠ t)
    (hf : findAccount s f = some fa) (ht : findAccount s t = some ta)
    (hact : fa.is_active = false) :
    (transfer s f t a d r).result =
      .error ⟨"ValueError", "Source account " ++ fa.account_number ++ " is not active"⟩ := by
  unfold transfer
  rw [if_neg (not_le.mpr ha), if_neg (by simp [hft]), hf, ht]
  simp [hact]

/-- Transfer into an inactive destination account is rejected. -/
theorem transfer_err_dest_inactive (s : DBState) (f t : Nat) (a : Int)
    (d r : Option String) (fa ta : Account) (ha : 0 < a) (hft : f ≠ t)
    (hf : findAccount s f = some fa) (ht : findAccount s t = some ta)
    (hfact : fa.is_active = true) (htact : ta.is_active = false) :
    (transfer s f t a d r).result =
      .error ⟨"ValueError", "Destination account " ++ ta.account_number ++ " is not active"⟩ := by
  unfold transfer
  rw [if_neg (not_le.mpr ha), if_neg (by simp [hft]), hf, ht]
  simp [hfact, htact]

/-- Transfer between accounts of different currencies is rejected. -/
theorem transfer_err_currency (s : DBState) (f t : Nat) (a : Int)
    (d r : Option String) (fa ta : Account) (ha : 0 < a) (hft : f ≠ t)
    (hf : findAccount s f = some fa) (ht : findAccount s t = some ta)
    (hfact : fa.is_active = true) (htact : ta.is_active = true)
    (hc : fa.currency ≠ ta.currency) :
    (transfer s f t a d r).result =
      .error ⟨"ValueError", "Currency mismatch: " ++ fa.currency ++ " != " ++ ta.currency⟩ := by
  unfold transfer
  rw [if_neg (not_le.mpr ha), if_neg (by simp [hft]), hf, ht]
  simp [hfact, htact, hc]

/-- Transfer beyond the source balance is rejected. -/
theorem transfer_err_insufficient (s : DBState) (f t : Nat) (a : Int)
    (d r : Option String) (fa ta : Account) (ha : 0 < a) (hft : f ≠ t)
    (hf : findAccount s f = some fa) (ht : findAccount s t = some ta)
    (hfact : fa.is_active = true) (htact : ta.is_active = true)
    (hc : fa.currency = ta.currency) (hlt : fa.balance < a) :
    (transfer s f t a d r).result =
      .error ⟨"ValueError", "Insufficient funds. Balance: " ++ toString fa.balance
        ++ ", Requested: " ++ toString a⟩ := by
  unfold transfer
  rw [if_neg (not_le.mpr ha), if_neg (by simp [hft]), hf, ht]
  simp [hfact, htact, hc, hlt]

/-- The two possible post-states of `close_account`. -/
theorem close_account_state_eq (s : DBState) (i : Nat) :
    (close_account s i).state = s ∨
    (close_account s i).state = setAccount s i (fun a => { a with is_active := false }) := by
  unfold close_account
  cases hfind : findAccount s i
  · left; rfl
  · rename_i acc
    by_cases hb : (acc.balance != 0) = true
    · left; simp [hb]
    · right; simp [hb]

/-- The two possible post-states of `reactivate_account`. -/
theorem reactivate_account_state_eq (s : DBState) (i : Nat) :
    (reactivate_account s i).state = s ∨
    (reactivate_account s i).state = setAccount s i (fun a => { a with is_active := true }) := by
  unfold reactivate_account
  cases hfind : findAccount s i
  · left; rfl
  · right; simp

/-- Closing an existing account with nonzero balance: error, state unchanged. -/
theorem close_account_nonzero (s : DBState) (i : Nat) (acc : Account)
    (hf : findAccount s i = some acc) (hb : acc.balance ≠ 0) :
    (close_account s i).result =
      .error ⟨"ValueError", "Cannot close account with non-zero balance: "
        ++ toString acc.balance⟩ ∧
    (close_account s i).state = s := by
  constructor <;> · unfold close_account; rw [hf]; simp [hb]

/-- Looking up the updated id after `setAccount` finds the updated row,
provided the update preserves the id. -/
theorem findAccount_setAccount (s : DBState) (i : Nat) (f : Account → Account)
    (hid : ∀ a, (f a).id = a.id) :
    findAccount (setAccount s i f) i = (findAccount s i).map f := by
  show (s.accounts.map fun a => if a.id == i then f a else a).find? (fun a => a.id == i)
    = (s.accounts.find? (fun a => a.id == i)).map f
  induction s.accounts with
  | nil => rfl
  | cons a l ih =>
    rw [List.map_cons]
    by_cases hm : (a.id == i) = true
    · have hfa : ((f a).id == i) = true := by rw [hid a]; exact hm
      rw [if_pos hm]
      simp [List.find?, hfa, hm]
    · have hm' : (a.id == i) = false := by simpa using hm
      rw [if_neg hm]
      simp only [List.find?, hm']
      exact ih

/-- Closing an existing account with zero balance: succeeds and stores the
same row with `is_active := false` (the row is not deleted). -/
theorem close_account_zero (s : DBState) (i : Nat) (acc : Account)
    (hf : findAccount s i = some acc) (hb : acc.balance = 0) :
    (close_account s i).result = .ok { acc with is_active := false } ∧
    findAccount (close_account s i).state i = some { acc with is_active := false } := by
  have hstate : (close_account s i).state
      = setAccount s i (fun a => { a with is_active := false }) := by
    unfold close_account; rw [hf]; simp [hb]
  constructor
  · unfold close_account; rw [hf]; simp [hb]
  · rw [hstate,
        findAccount_setAccount s i (fun a => { a with is_active := false }) (fun a => rfl), hf]
    rfl

/-! ### Operation sequences (reachable states) -/

/-- One public mutating call of the service. -/
inductive Op where
  | createAccount (user_id : Nat) (account_type : AccountType)
      (currency : String) (initial_balance : Int)
  | deposit (account_id : Nat) (amount : Int) (description reference : Option String)
  | withdraw (account_id : Nat) (amount : Int) (description reference : Option String)
  | transfer (from_account_id to_account_id : Nat) (amount : Int)
      (description reference : Option String)
  | closeAccount (account_id : Nat)
  | reactivateAccount (account_id : Nat)

/-- Committed database state after one call (also after a failed call). -/
def applyOp (s : DBState) : Op → DBState
  | .createAccount u t c b => (create_account s u t c b).state
  | .deposit i a d r => (deposit s i a d r).state
  | .withdraw i a d r => (withdraw s i a d r).state
  | .transfer f t a d r => (transfer s f t a d r).state
  | .closeAccount i => (close_account s i).state
  | .reactivateAccount i => (reactivate_account s i).state

/-- Committed database state after a sequence of calls. -/
def runOps (s : DBState) : List Op → DBState
  | [] => s
  | op :: rest => runOps (applyOp s op) rest

/-- The persistent core of an account row: id, balance, currency. -/
def accountCore (a : Account) : Nat × Int × String := (a.id, a.balance, a.currency)

/-- `setAccount` with a core-preserving update preserves every row's core. -/
theorem setAccount_core (s : DBState) (i : Nat) (f : Account → Account)
    (hf : ∀ a, accountCore (f a) = accountCore a) :
    ((setAccount s i f).accounts).map accountCore = s.accounts.map accountCore := by
  show (s.accounts.map fun a => if a.id == i then f a else a).map accountCore
    = s.accounts.map accountCore
  induction s.accounts with
  | nil => rfl
  | cons a l ih =>
    simp only [List.map_cons, ih]
    by_cases hm : (a.id == i) = true
    · rw [if_pos hm, hf a]
    · rw [if_neg hm]

/-- No service call ever changes any account's id, balance or currency:
deposit, withdraw and transfer always fail and roll back, `create_account`
fails before inserting, and close/reactivate only touch `is_active`. -/
theorem applyOp_core (s : DBState) (op : Op) :
    ((applyOp s op).accounts).map accountCore = s.accounts.map accountCore := by
  cases op with
  | createAccount u t c b => rw [applyOp, create_account_state]
  | deposit i a d r => rw [applyOp, deposit_state]
  | withdraw i a d r => rw [applyOp, withdraw_state]
  | transfer f t a d r => rw [applyOp, transfer_state]
  | closeAccount i =>
    rw [applyOp]
    rcases close_account_state_eq s i with h | h
    · rw [h]
    · rw [h]; exact setAccount_core s i _ (fun a => rfl)
  | reactivateAccount i =>
    rw [applyOp]
    rcases reactivate_account_state_eq s i with h | h
    · rw [h]
    · rw [h]; exact setAccount_core s i _ (fun a => rfl)

/-- Core preservation extends to whole call sequences. -/
theorem runOps_core (s : DBState) (ops : List Op) :
    ((runOps s ops).accounts).map accountCore = s.accounts.map accountCore := by
  induction ops generalizing s with
  | nil => rfl
  | cons op rest ih => rw [runOps, ih, applyOp_core]

/-- `find?` over the cores agrees with the core of `find?`. -/
theorem find?_map_core (l : List Account) (i : Nat) :
    (l.map accountCore).find? (fun p => p.1 == i)
      = (l.find? (fun a => a.id == i)).map accountCore := by
  induction l with
  | nil => rfl
  | cons a l ih =>
    by_cases hm : (a.id == i) = true
    · simp [List.find?, accountCore, hm]
    · simp [List.find?, accountCore, hm, ih]

/-! ### Claim theorems -/

/-- C1: code-bug demonstration.  On a transfer whose validations all pass
(distinct active USD accounts, positive amount within the source balance),
the service moves no money: `_create_transaction` raises `TypeError` because
the `Transaction` model has no `account_id` column, the session rolls back,
and every balance is exactly as before instead of changing by the amount. -/
theorem c1_valid_transfer_raises_typeerror_and_moves_no_money :
    (transfer demoState 1 2 50 none none).result =
      .error ⟨"TypeError", "account_id is an invalid keyword argument for Transaction"⟩ ∧
    (transfer demoState 1 2 50 none none).state = demoState := ⟨rfl, rfl⟩

/-- C2: code-bug demonstration.  A transfer whose validations pass produces
zero `Transaction` rows, not two linked debit/credit legs: the constructor
call raises before any row is added, and the model in any case has no
`balance_after` or `related_account` columns. -/
theorem c2_valid_transfer_creates_no_transaction_rows :
    (transfer demoState 1 2 30 none none).state.transactions = ([] : List Transaction) ∧
    errClass (transfer demoState 1 2 30 none none).result = some "TypeError" := ⟨rfl, rfl⟩

/-- C6: code-bug demonstration.  `get_account_summary` on an existing account
raises `AttributeError` (the deposit-total query is built from
`Transaction.account_id`, which the `Transaction` class does not define), so
it never reports any totals; and the ledger stays empty because every deposit
attempt raises `TypeError`, so no ledger-derived balance exists at all. -/
theorem c6_account_summary_raises_attributeerror :
    (get_account_summary demoState 1).result =
      .error ⟨"AttributeError", "type object Transaction has no attribute account_id"⟩ ∧
    (deposit demoState 1 100 none none).result =
      .error ⟨"TypeError", "account_id is an invalid keyword argument for Transaction"⟩ ∧
    (deposit demoState 1 100 none none).state.transactions = ([] : List Transaction) :=
  ⟨rfl, rfl, rfl⟩

/-- C9: code-bug demonstration.  Every ledger append raises `TypeError`
(`account_id` is not a `Transaction` constructor keyword), whether or not the
caller supplied a reference; `_create_transaction` never generates a
reference number and no `DuplicateReferenceError` is ever raised. -/
theorem c9_ledger_append_always_raises_typeerror :
    create_transaction 1 .deposit 50 "Deposit" .completed none (some 150) none =
      .error ⟨"TypeError", "account_id is an invalid keyword argument for Transaction"⟩ ∧
    create_transaction 1 .deposit 50 "Deposit" .completed (some "REF-001") (some 150) none =
      .error ⟨"TypeError", "account_id is an invalid keyword argument for Transaction"⟩ :=
  ⟨rfl, rfl⟩

/-- C10: code-bug demonstration.  No public operation ever creates a
transaction row at all — with any status: deposit, withdraw and transfer
raise `TypeError` in `_create_transaction`, and `create_account` raises
`AttributeError` in `_generate_account_number` before reaching its initial
deposit. -/
theorem c10_no_operation_ever_creates_a_transaction_row :
    (deposit demoState 1 25 none none).state.transactions = ([] : List Transaction) ∧
    (withdraw demoState 1 25 none none).state.transactions = ([] : List Transaction) ∧
    (transfer demoState 1 2 25 none none).state.transactions = ([] : List Transaction) ∧
    (create_account demoState 1 .checking "USD" 25).state.transactions = ([] : List Transaction) ∧
    errClass (deposit demoState 1 25 none none).result = some "TypeError" ∧
    errClass (create_account demoState 1 .checking "USD" 25).result = some "AttributeError" :=
  ⟨rfl, rfl, rfl, rfl, rfl, rfl⟩

/-- C3 counterexample: a transfer with `from == to` raises a plain
`ValueError`, not a `SameAccountError` — no such exception class exists in
the code. -/
theorem c3_counterexample_same_account_raises_plain_valueerror :
    errClass (transfer demoState 1 1 50 none none).result = some "ValueError" ∧
    errClass (transfer demoState 1 1 50 none none).result ≠ some "SameAccountError" :=
  ⟨rfl, by decide⟩

/-- C4 counterexample: `withdraw` with `amt > balance` raises a plain
`ValueError`, not an `InsufficientFundsError` (no such class exists in the
code); the balance is indeed unchanged. -/
theorem c4_counterexample_insufficient_withdraw_is_valueerror :
    errClass (withdraw demoState 1 200 none none).result = some "ValueError" ∧
    errClass (withdraw demoState 1 200 none none).result ≠ some "InsufficientFundsError" ∧
    (withdraw demoState 1 200 none none).state = demoState :=
  ⟨rfl, by decide, rfl⟩

/-- C7 counterexample: a transfer whose validations pass acquires no lock at
all — it issues two plain account `SELECT`s, in argument order (here from
account 2, then account 1, i.e. descending ids), never a row lock. -/
theorem c7_counterexample_transfer_acquires_no_locks :
    ((transfer demoState 2 1 50 none none).events.filter DbEvent.isLock) = ([] : List DbEvent) ∧
    ((transfer demoState 2 1 50 none none).events.filter DbEvent.isSelectAccount) =
      [DbEvent.selectAccount 2, DbEvent.selectAccount 1] ∧
    errClass (transfer demoState 2 1 50 none none).result = some "TypeError" :=
  ⟨rfl, rfl, rfl⟩

/-- C8 counterexample: closing an account with nonzero balance raises a plain
`ValueError`, not a `NonZeroBalanceError` — no such class exists in the code;
the account and database are indeed unchanged. -/
theorem c8_counterexample_nonzero_close_raises_plain_valueerror :
    errClass (close_account demoState 1).result = some "ValueError" ∧
    errClass (close_account demoState 1).result ≠ some "NonZeroBalanceError" ∧
    (close_account demoState 1).state = demoState :=
  ⟨rfl, by decide, rfl⟩

/-- C3 (amended): every failed transfer validation raises a plain `ValueError`
whose message is specific to that validation, with the code's check order
(amount first, then same-account, then — after loading both rows — source
active, destination active, currency equality, sufficient funds); the
messages of the five validations are pairwise distinct. -/
theorem c3_amended_distinct_valueerror_messages :
    (∀ (s : DBState) (f t : Nat) (a : Int) (d r : Option String), a ≤ 0 →
      (transfer s f t a d r).result =
        .error ⟨"ValueError", "Transfer amount must be positive"⟩) ∧
    (∀ (s : DBState) (f : Nat) (a : Int) (d r : Option String), 0 < a →
      (transfer s f f a d r).result =
        .error ⟨"ValueError", "Cannot transfer to the same account"⟩) ∧
    (∀ (s : DBState) (f t : Nat) (a : Int) (d r : Option String) (fa ta : Account),
      0 < a → f ≠ t → findAccount s f = some fa → findAccount s t = some ta →
      fa.is_active = false →
      (transfer s f t a d r).result = .error ⟨"ValueError",
        "Source account " ++ fa.account_number ++ " is not active"⟩) ∧
    (∀ (s : DBState) (f t : Nat) (a : Int) (d r : Option String) (fa ta : Account),
      0 < a → f ≠ t → findAccount s f = some fa → findAccount s t = some ta →
      fa.is_active = true → ta.is_active = false →
      (transfer s f t a d r).result = .error ⟨"ValueError",
        "Destination account " ++ ta.account_number ++ " is not active"⟩) ∧
    (∀ (s : DBState) (f t : Nat) (a : Int) (d r : Option String) (fa ta : Account),
      0 < a → f ≠ t → findAccount s f = some fa → findAccount s t = some ta →
      fa.is_active = true → ta.is_active = true → fa.currency ≠ ta.currency →
      (transfer s f t a d r).result = .error ⟨"ValueError",
        "Currency mismatch: " ++ fa.currency ++ " != " ++ ta.currency⟩) ∧
    (∀ (s : DBState) (f t : Nat) (a : Int) (d r : Option String) (fa ta : Account),
      0 < a → f ≠ t → findAccount s f = some fa → findAccount s t = some ta →
      fa.is_active = true → ta.is_active = true → fa.currency = ta.currency →
      fa.balance < a →
      (transfer s f t a d r).result = .error ⟨"ValueError",
        "Insufficient funds. Balance: " ++ toString fa.balance
          ++ ", Requested: " ++ toString a⟩) ∧
    ["Transfer amount must be positive", "Cannot transfer to the same account",
     "Source account 10000001 is not active", "Destination account 20000001 is not active",
     "Currency mismatch: USD != EUR",
     "Insufficient funds. Balance: 100, Requested: 200"].Pairwise (fun x y => x ≠ y) := by
  refine ⟨?_, ?_, ?_, ?_, ?_, ?_, ?_⟩
  · intro s f t a d r ha; exact transfer_err_amount s f t a d r ha
  · intro s f a d r ha; exact transfer_err_same_account s f a d r ha
  · intro s f t a d r fa ta ha hft hf ht hact
    exact transfer_err_source_inactive s f t a d r fa ta ha hft hf ht hact
  · intro s f t a d r fa ta ha hft hf ht hfact htact
    exact transfer_err_dest_inactive s f t a d r fa ta ha hft hf ht hfact htact
  · intro s f t a d r fa ta ha hft hf ht hfact htact hc
    exact transfer_err_currency s f t a d r fa ta ha hft hf ht hfact htact hc
  · intro s f t a d r fa ta ha hft hf ht hfact htact hc hlt
    exact transfer_err_insufficient s f t a d r fa ta ha hft hf ht hfact htact hc hlt
  · decide

/-- C3 witness: the amended statement at a concrete input — a transfer with a
non-positive amount. -/
theorem c3_amended_witness :
    (transfer demoState 1 2 (-5) none none).result =
      .error ⟨"ValueError", "Transfer amount must be positive"⟩ :=
  c3_amended_distinct_valueerror_messages.1 demoState 1 2 (-5) none none (by decide)

/-- C4 (amended): every failing mutating operation leaves the committed
database (every balance and the whole ledger) exactly as before the call; in
particular `withdraw` beyond the balance raises a `ValueError` with the
insufficient-funds message (not an `InsufficientFundsError`, which does not
exist) and changes nothing.  No ledger rows need rolling back because no
operation ever succeeds in writing one. -/
theorem c4_amended_failing_ops_preserve_state :
    (∀ (s : DBState) (i : Nat) (a : Int) (d r : Option String) (e : PyExc),
      (deposit s i a d r).result = .error e → (deposit s i a d r).state = s) ∧
    (∀ (s : DBState) (i : Nat) (a : Int) (d r : Option String) (e : PyExc),
      (withdraw s i a d r).result = .error e → (withdraw s i a d r).state = s) ∧
    (∀ (s : DBState) (f t : Nat) (a : Int) (d r : Option String) (e : PyExc),
      (transfer s f t a d r).result = .error e → (transfer s f t a d r).state = s) ∧
    (∀ (s : DBState) (i : Nat) (e : PyExc),
      (close_account s i).result = .error e → (close_account s i).state = s) ∧
    (∀ (s : DBState) (u : Nat) (t : AccountType) (c : String) (b : Int) (e : PyExc),
      (create_account s u t c b).result = .error e → (create_account s u t c b).state = s) ∧
    (∀ (s : DBState) (i : Nat) (a : Int) (d r : Option String) (acc : Account),
      findAccount s i = some acc → acc.is_active = true → 0 < a → acc.balance < a →
      (withdraw s i a d r).result = .error ⟨"ValueError",
        "Insufficient funds. Balance: " ++ toString acc.balance
          ++ ", Requested: " ++ toString a⟩ ∧
      (withdraw s i a d r).state = s) := by
  refine ⟨?_, ?_, ?_, ?_, ?_, ?_⟩
  · intro s i a d r e _; exact deposit_state s i a d r
  · intro s i a d r e _; exact withdraw_state s i a d r
  · intro s f t a d r e _; exact transfer_state s f t a d r
  · intro s i e h; exact close_account_state_of_error s i e h
  · intro s u t c b e _; exact create_account_state s u t c b
  · intro s i a d r acc hf hact ha hlt
    exact ⟨withdraw_err_insufficient s i a d r acc hf hact ha hlt,
           withdraw_state s i a d r⟩

/-- C4 witness: the amended statement at a concrete input — an over-balance
withdrawal from account 2 (balance 80). -/
theorem c4_amended_witness :
    (withdraw demoState 2 90 none none).result = .error ⟨"ValueError",
      "Insufficient funds. Balance: 80, Requested: 90"⟩ ∧
    (withdraw demoState 2 90 none none).state = demoState :=
  c4_amended_failing_ops_preserve_state.2.2.2.2.2 demoState 2 90 none none accB
    rfl rfl (by decide) (by decide)

/-- C5: through any sequence of service calls, every account keeps a
non-negative balance (given they start non-negative) and its currency never
changes.  This holds because no call ever mutates a committed balance or
currency: deposit/withdraw/transfer always roll back, `create_account` always
fails before inserting, and close/reactivate only toggle `is_active`. -/
theorem c5_balances_nonneg_and_currency_immutable (s0 : DBState) (ops : List Op)
    (h0 : ∀ a ∈ s0.accounts, 0 ≤ a.balance) :
    (∀ a ∈ (runOps s0 ops).accounts, 0 ≤ a.balance) ∧
    (∀ (i : Nat) (c : String), (findAccount s0 i).map Account.currency = some c →
      (findAccount (runOps s0 ops) i).map Account.currency = some c) := by
  have hcore := runOps_core s0 ops
  constructor
  · intro a ha
    have hmem : accountCore a ∈ ((runOps s0 ops).accounts).map accountCore :=
      List.mem_map_of_mem accountCore ha
    rw [hcore] at hmem
    obtain ⟨b, hb, hba⟩ := List.mem_map.mp hmem
    have hbal : b.balance = a.balance := congrArg (fun p => p.2.1) hba
    rw [← hbal]
    exact h0 b hb
  · intro i c hc
    have hfind : (findAccount s0 i).map accountCore
        = (findAccount (runOps s0 ops) i).map accountCore := by
      unfold findAccount
      rw [← find?_map_core, ← find?_map_core, hcore]
    have hcur : ∀ (o : Option Account),
        o.map Account.currency = (o.map accountCore).map (fun p => p.2.2) := by
      intro o; cases o <;> rfl
    rw [hcur, ← hfind, ← hcur]
    exact hc

/-- C5 witness: the invariant applied to the seeded database and a concrete
sequence of calls (close then reactivate account 2): account 1 still holds
USD afterwards. -/
theorem c5_witness :
    (findAccount (runOps demoState [Op.closeAccount 2, Op.reactivateAccount 2]) 1).map
        Account.currency = some "USD" :=
  (c5_balances_nonneg_and_currency_immutable demoState
    [Op.closeAccount 2, Op.reactivateAccount 2] (by decide)).2 1 "USD" rfl

/-- C7 (amended): `transfer` acquires no row locks at all; past the two
precondition checks it reads the two accounts with plain `SELECT`s in
argument order — source first, then destination — regardless of their ids. -/
theorem c7_amended_no_locks_and_argument_order_reads :
    (∀ (s : DBState) (f t : Nat) (a : Int) (d r : Option String),
      (transfer s f t a d r).events.filter DbEvent.isLock = []) ∧
    (∀ (s : DBState) (f t : Nat) (a : Int) (d r : Option String), 0 < a → f ≠ t →
      (transfer s f t a d r).events.filter DbEvent.isSelectAccount =
        [DbEvent.selectAccount f, DbEvent.selectAccount t]) := by
  constructor
  · intro s f t a d r
    unfold transfer
    repeat' split
    all_goals rfl
  · intro s f t a d r ha hft
    unfold transfer
    rw [if_neg (not_le.mpr ha), if_neg (by simp [hft])]
    repeat' split
    all_goals rfl

/-- C7 witness: the amended statement at a concrete input. -/
theorem c7_amended_witness :
    (transfer demoState 1 2 40 none none).events.filter DbEvent.isSelectAccount =
      [DbEvent.selectAccount 1, DbEvent.selectAccount 2] :=
  c7_amended_no_locks_and_argument_order_reads.2 demoState 1 2 40 none none
    (by decide) (by decide)

/-- C8 (amended): `close_account` on an existing account with nonzero balance
raises a `ValueError` (the non-zero-balance message; no `NonZeroBalanceError`
class exists) and changes nothing; with balance zero it succeeds and stores
the same row with `is_active := false` (never deleting it); afterwards every
deposit, withdrawal or transfer involving the account — with positive amount
and, for transfers, distinct existing accounts — raises a `ValueError`
reporting the account is not active. -/
theorem c8_amended_close_behavior_and_inactive_rejection :
    (∀ (s : DBState) (i : Nat) (acc : Account),
      findAccount s i = some acc → acc.balance ≠ 0 →
      (close_account s i).result = .error ⟨"ValueError",
        "Cannot close account with non-zero balance: " ++ toString acc.balance⟩ ∧
      (close_account s i).state = s) ∧
    (∀ (s : DBState) (i : Nat) (acc : Account),
      findAccount s i = some acc → acc.balance = 0 →
      (close_account s i).result = .ok { acc with is_active := false } ∧
      findAccount (close_account s i).state i = some { acc with is_active := false }) ∧
    (∀ (s : DBState) (i : Nat) (a : Int) (d r : Option String) (acc : Account),
      findAccount s i = some acc → acc.is_active = false → 0 < a →
      (deposit s i a d r).result = .error ⟨"ValueError",
        "Account " ++ acc.account_number ++ " is not active"⟩) ∧
    (∀ (s : DBState) (i : Nat) (a : Int) (d r : Option String) (acc : Account),
      findAccount s i = some acc → acc.is_active = false → 0 < a →
      (withdraw s i a d r).result = .error ⟨"ValueError",
        "Account " ++ acc.account_number ++ " is not active"⟩) ∧
    (∀ (s : DBState) (f t : Nat) (a : Int) (d r : Option String) (fa ta : Account),
      0 < a → f ≠ t → findAccount s f = some fa → findAccount s t = some ta →
      fa.is_active = false →
      (transfer s f t a d r).result = .error ⟨"ValueError",
        "Source account " ++ fa.account_number ++ " is not active"⟩) ∧
    (∀ (s : DBState) (f t : Nat) (a : Int) (d r : Option String) (fa ta : Account),
      0 < a → f ≠ t → findAccount s f = some fa → findAccount s t = some ta →
      fa.is_active = true → ta.is_active = false →
      (transfer s f t a d r).result = .error ⟨"ValueError",
        "Destination account " ++ ta.account_number ++ " is not active"⟩) := by
  refine ⟨?_, ?_, ?_, ?_, ?_, ?_⟩
  · intro s i acc hf hb; exact close_account_nonzero s i acc hf hb
  · intro s i acc hf hb; exact close_account_zero s i acc hf hb
  · intro s i a d r acc hf hact ha; exact deposit_err_inactive s i a d r acc hf hact ha
  · intro s i a d r acc hf hact ha; exact withdraw_err_inactive s i a d r acc hf hact ha
  · intro s f t a d r fa ta ha hft hf ht hact
    exact transfer_err_source_inactive s f t a d r fa ta ha hft hf ht hact
  · intro s f t a d r fa ta ha hft hf ht hfact htact
    exact transfer_err_dest_inactive s f t a d r fa ta ha hft hf ht hfact htact

/-- C8 witness: the amended statement at a concrete input — a deposit into the
inactive seeded account 3. -/
theorem c8_amended_witness :
    (deposit demoState 3 10 none none).result =
      .error ⟨"ValueError", "Account 30000001 is not active"⟩ :=
  c8_amended_close_behavior_and_inactive_rejection.2.2.1 demoState 3 10 none none accC
    rfl rfl (by decide)

end Bank
